import Mathlib

/-!
Verification of `sutil::value_ptr` (src/value_ptr/value_ptr.hpp).

The class under study is a smart pointer that clones its pointee on copy.
Its state is one member `std::tuple<T*, ClonerT, DeleterT> m_`:
a raw owning pointer (slot 0), a stored cloner policy value (slot 1) and a
stored deleter policy value (slot 2).

Shallow embedding choices:
- The pointee type T is modelled as `Int`; addresses are `Nat`; a raw
  pointer `T*` is `Option Nat` with `none` for `nullptr`.
- The heap is an association list of allocated cells plus a fresh-address
  counter, so that a fresh allocation is distinct from every live address.
- Each operation threads an explicit `World` (heap plus an event log).
  The log records every call of the stored deleter and cloner at the call
  sites that appear in the source, so that claims of the form "the deleter
  is invoked exactly once / never / only on null" are statable.
- An operation that can throw (only cloning can) returns `Except`, the
  error carrying the machine state at the moment of the throw.
- Policy objects are values with decidable equality; their behaviour is
  given by a `run` function. `cloner.hpp` (the default cloner) is not part
  of the given sources, so its behaviour is modelled from the spec, see
  `ClonerV.run`.
-/

/-- An address of a heap cell. C++ `T*` is modelled as `Option Addr`,
with `none` playing the role of `nullptr`. -/
abbrev Addr := Nat

/-- A pointee value; the element type T is instantiated at `Int`. -/
abbrev Val := Int

/-- Lookup of an address in a list of heap cells (first match). -/
def readCells : List (Addr × Val) → Addr → Option Val
  | [], _ => none
  | c :: rest, a => if c.1 = a then some c.2 else readCells rest a

/-- Update of the cell at an address (no effect if the address is absent). -/
def writeCells : List (Addr × Val) → Addr → Val → List (Addr × Val)
  | [], _, _ => []
  | c :: rest, a, x =>
    if c.1 = a then (a, x) :: writeCells rest a x else c :: writeCells rest a x

/-- Removal of the cell at an address. -/
def freeCells : List (Addr × Val) → Addr → List (Addr × Val)
  | [], _ => []
  | c :: rest, a => if c.1 = a then freeCells rest a else c :: freeCells rest a

/-- A heap: the allocated cells and a counter bounding every live address,
so that `next` is always fresh. -/
structure Heap where
  cells : List (Addr × Val)
  next : Addr
deriving DecidableEq

/-- Dereference: the value stored at an address, if allocated. -/
def Heap.read (h : Heap) (a : Addr) : Option Val :=
  readCells h.cells a

/-- In-place mutation of the pointee at an address. -/
def Heap.write (h : Heap) (a : Addr) (x : Val) : Heap :=
  ⟨writeCells h.cells a x, h.next⟩

/-- Deallocation of the cell at an address. -/
def Heap.free (h : Heap) (a : Addr) : Heap :=
  ⟨freeCells h.cells a, h.next⟩

/-- Allocation of a new cell holding `x`; returns the new heap and the
address of the cell. -/
def Heap.alloc (h : Heap) (x : Val) : Heap × Addr :=
  (⟨(h.next, x) :: h.cells, h.next + 1⟩, h.next)

/-- Well-formedness: every allocated address is below the fresh counter. -/
abbrev Heap.WF (h : Heap) : Prop :=
  ∀ c ∈ h.cells, c.1 < h.next

/-- An observable policy invocation: a call of the stored deleter with the
given pointer argument, or a call of the stored cloner on the given
(non-null) source address. -/
inductive Event where
  | deleterCall (p : Option Addr)
  | clonerCall (a : Addr)
deriving DecidableEq

/-- The machine state an operation threads: the heap and the log of policy
invocations made so far. -/
structure World where
  heap : Heap
  log : List Event
deriving DecidableEq

/-- A stored cloner policy value (template parameter ClonerT, tuple slot 1).
`default` is `default_clone<T>`; `failing` is a cloner configured to fail
(throw) when invoked; `tagged` values behave like the default and exist so
that transfer of the policy value itself is observable. -/
inductive ClonerV where
  | default
  | failing
  | tagged (n : Nat)
deriving DecidableEq

/-- Modelled from the spec: `cloner.hpp` with `default_clone<T>` is not
among the given sources. Per the spec the default cloner produces a new,
independently owned duplicate of the pointee (for the modelled pointee
type, a fresh cell holding the same value) and may fail; a failing
invocation commits nothing (any partially constructed clone is destroyed
before the failure propagates). Cloning a dangling (unallocated) address
is modelled as failure. `none` is a throw. -/
def ClonerV.run (c : ClonerV) (h : Heap) (a : Addr) : Option (Heap × Addr) :=
  match c with
  | ClonerV.failing => none
  | _ =>
    match h.read a with
    | some x => some (h.alloc x)
    | none => none

/-- A stored deleter policy value (template parameter DeleterT, tuple slot
2). `default` is `std::default_delete<T>`; `tagged` values behave the same
and exist so that transfer of the policy value itself is observable. -/
inductive DeleterV where
  | default
  | tagged (n : Nat)
deriving DecidableEq

/-- Behaviour of a deleter: destroys the pointee; per its contract a null
argument is a no-op (`delete nullptr` does nothing). Deleters never fail. -/
def DeleterV.run (d : DeleterV) (h : Heap) (p : Option Addr) : Heap :=
  match p with
  | none => h
  | some a => h.free a

/-- The class `sutil::value_ptr<T, ClonerT, DeleterT>`. The three fields
are the three slots of the member tuple `m_`: `ptr` is `std::get<0>`,
`cloner` is `std::get<1>`, `deleter` is `std::get<2>`. -/
structure value_ptr where
  ptr : Option Addr
  cloner : ClonerV
  deleter : DeleterV
deriving DecidableEq

/-- Source `get()`: returns `std::get<0>(m_)`. -/
def value_ptr.get (v : value_ptr) : Option Addr :=
  v.ptr

/-- Source `get_cloner()`: returns `std::get<1>(m_)`. -/
def value_ptr.get_cloner (v : value_ptr) : ClonerV :=
  v.cloner

/-- Source `get_deleter()`: returns `std::get<2>(m_)`. -/
def value_ptr.get_deleter (v : value_ptr) : DeleterV :=
  v.deleter

/-- Source `explicit operator bool() const`:
`return get() == nullptr ? false : true;`. -/
def value_ptr.toBool (v : value_ptr) : Bool :=
  if v.get = none then false else true

/-- Source default constructor `value_ptr()`: initialises
`m_(nullptr, cloner_type(), deleter_type())`. -/
def value_ptr.mk_default : value_ptr :=
  ⟨none, ClonerV.default, DeleterV.default⟩

/-- Source constructor `value_ptr(std::nullptr_t)`: initialises
`m_(nullptr, cloner_type(), deleter_type())`, same as the default one. -/
def value_ptr.mk_null : value_ptr :=
  ⟨none, ClonerV.default, DeleterV.default⟩

/-- Source constructor `value_ptr(T* ptr)`: initialises
`m_(ptr, cloner_type(), deleter_type())`. -/
def value_ptr.mk_ptr (p : Option Addr) : value_ptr :=
  ⟨p, ClonerV.default, DeleterV.default⟩

/-- Source constructor `value_ptr(T* ptr, d, c)` (line 134): initialises
`m_(ptr, c, d)` with the supplied deleter and cloner. -/
def value_ptr.mk_full (p : Option Addr) (d : DeleterV) (c : ClonerV) : value_ptr :=
  ⟨p, c, d⟩

/-- Source `reset(pointer p = pointer())`:
`if (p != get()) { get_deleter()(get()); std::get<0>(m_) = p; }`.
The call of the stored deleter on the old pointer is logged. -/
def value_ptr.reset (v : value_ptr) (w : World) (p : Option Addr) : value_ptr × World :=
  if p ≠ v.get then
    ({ v with ptr := p },
     ⟨v.get_deleter.run w.heap v.get, w.log ++ [Event.deleterCall v.get]⟩)
  else
    (v, w)

/-- Source `clone() const`:
`if (operator bool()) return get_cloner()(get()); else return nullptr;`.
The guard `operator bool()` is `get() != nullptr`, hence the match on
`v.get`. The call of the stored cloner is logged; a failing cloner makes
the whole operation throw, carrying the state at the throw. `clone` is a
const member: it returns no modified `v`. -/
def value_ptr.clone (v : value_ptr) (w : World) : Except World (Option Addr × World) :=
  match v.get with
  | some a =>
    match v.get_cloner.run w.heap a with
    | some hb => Except.ok (some hb.2, ⟨hb.1, w.log ++ [Event.clonerCall a]⟩)
    | none => Except.error ⟨w.heap, w.log ++ [Event.clonerCall a]⟩
  | none => Except.ok (none, w)

/-- Source `release()`:
`pointer p = get(); std::get<0>(m_) = nullptr; return p;`.
No policy is invoked, so the world is returned untouched. -/
def value_ptr.release (v : value_ptr) (w : World) : Option Addr × value_ptr × World :=
  (v.get, { v with ptr := none }, w)

/-- Source destructor `~value_ptr()`: `{ reset(); }` with the defaulted
null argument; the object then ceases to exist, so only the world remains. -/
def value_ptr.destruct (v : value_ptr) (w : World) : World :=
  (v.reset w none).2

/-- Source copy constructor `value_ptr(value_ptr const& v)`:
the member `m_` is first default-initialised (null pointer, default
policies), then the body runs
`reset(v.clone()); get_deleter() = v.get_deleter(); get_cloner() = v.get_cloner();`.
If `v.clone()` throws, the exception leaves the constructor: no new
instance comes to exist and the already-initialised member tuple is
discarded without running any deleter. -/
def value_ptr.copyCtor (v : value_ptr) (w : World) : Except World (value_ptr × World) :=
  match v.clone w with
  | Except.error w1 => Except.error w1
  | Except.ok pw =>
    let t0 : value_ptr := ⟨none, ClonerV.default, DeleterV.default⟩
    let t1 := t0.reset pw.2 pw.1
    Except.ok ({ t1.1 with deleter := v.get_deleter, cloner := v.get_cloner }, t1.2)

/-- Source copy assignment `operator=(value_ptr const& v)`:
`reset(v.clone()); get_deleter() = v.get_deleter(); get_cloner() = v.get_cloner();`.
The argument of `reset` is evaluated first, so a throwing clone leaves the
assignment target exactly as it was (carried in the error). -/
def value_ptr.copyAssign (t v : value_ptr) (w : World) :
    Except (value_ptr × World) (value_ptr × World) :=
  match v.clone w with
  | Except.error w1 => Except.error (t, w1)
  | Except.ok pw =>
    let t1 := t.reset pw.2 pw.1
    Except.ok ({ t1.1 with deleter := v.get_deleter, cloner := v.get_cloner }, t1.2)

/-- Source move assignment `operator=(value_ptr&& v)`:
`reset(v.release()); get_deleter() = std::move(v.get_deleter()); get_cloner() = std::move(v.get_cloner());`.
Moving a policy value of the modelled kinds (plain data) leaves the source
value unchanged (valid but unspecified in C++, unchanged in the model).
Returns (target, source, world) after the assignment. -/
def value_ptr.moveAssign (t v : value_ptr) (w : World) : value_ptr × value_ptr × World :=
  let r := v.release w
  let t1 := t.reset r.2.2 r.1
  ({ t1.1 with deleter := r.2.1.get_deleter, cloner := r.2.1.get_cloner }, r.2.1, t1.2)

/-- Source move assignment applied to the object itself,
`v = std::move(v)`: the same body as `moveAssign` but with target and
source aliased to the one object, so `v.release()` empties `v` before
`reset` adopts the released pointer back, and the policy assignments are
self-moves (identity on the modelled policy values). -/
def value_ptr.selfMoveAssign (v : value_ptr) (w : World) : value_ptr × World :=
  let r := v.release w
  let t1 := r.2.1.reset r.2.2 r.1
  (t1.1, t1.2)

/-- Source move constructor `value_ptr(value_ptr&& v)`:
`{ reset(); m_ = std::move(v); }` with `m_` first default-initialised.
The statement `m_ = std::move(v)` assigns the `value_ptr` object itself to
the `std::tuple` member; no such `operator=` exists on `std::tuple`, so the
constructor is ill-formed and fails to compile at any use. It is modelled
here by the nearest well-formed reading, `m_ = std::move(v.m_)`: tuple move
assignment, under which the raw pointer member of `v` is copied, not
nulled, so the source keeps its pointer. Returns (target, source, world). -/
def value_ptr.moveCtor (v : value_ptr) (w : World) : value_ptr × value_ptr × World :=
  let t0 : value_ptr := ⟨none, ClonerV.default, DeleterV.default⟩
  let t1 := t0.reset w none
  (⟨v.get, v.get_cloner, v.get_deleter⟩, v, t1.2)

/-! Heap lemmas: freshness of allocation and frame facts for write and
free, used to settle the deep-copy and clone claims. -/

theorem readCells_lt (l : List (Addr × Val)) (n a : Addr) (x : Val)
    (hwf : ∀ c ∈ l, c.1 < n) (hr : readCells l a = some x) : a < n := by
  induction l with
  | nil => simp [readCells] at hr
  | cons c rest ih =>
    by_cases hc : c.1 = a
    · subst hc
      exact hwf c (List.mem_cons_self c rest)
    · simp only [readCells, if_neg hc] at hr
      exact ih (fun d hd => hwf d (List.mem_cons_of_mem c hd)) hr

theorem Heap.read_lt (h : Heap) (a : Addr) (x : Val)
    (hwf : h.WF) (hr : h.read a = some x) : a < h.next :=
  readCells_lt h.cells h.next a x hwf hr

theorem Heap.read_alloc_self (h : Heap) (x : Val) :
    (h.alloc x).1.read h.next = some x := by
  simp [Heap.alloc, Heap.read, readCells]

theorem Heap.read_alloc_ne (h : Heap) (x : Val) (a : Addr) (hne : a ≠ h.next) :
    (h.alloc x).1.read a = h.read a := by
  simp only [Heap.alloc, Heap.read, readCells]
  rw [if_neg (fun hh => hne hh.symm)]

theorem readCells_free_ne (l : List (Addr × Val)) (a b : Addr) (hne : b ≠ a) :
    readCells (freeCells l a) b = readCells l b := by
  induction l with
  | nil => simp [freeCells]
  | cons c rest ih =>
    by_cases hc : c.1 = a
    · simp [freeCells, readCells, hc, Ne.symm hne, ih]
    · simp [freeCells, readCells, hc, ih]

theorem Heap.read_free_ne (h : Heap) (a b : Addr) (hne : b ≠ a) :
    (h.free a).read b = h.read b :=
  readCells_free_ne h.cells a b hne

theorem readCells_write_ne (l : List (Addr × Val)) (a b : Addr) (x : Val)
    (hne : b ≠ a) : readCells (writeCells l a x) b = readCells l b := by
  induction l with
  | nil => simp [writeCells]
  | cons c rest ih =>
    by_cases hc : c.1 = a
    · simp [writeCells, readCells, hc, Ne.symm hne, ih]
    · simp [writeCells, readCells, hc, ih]

theorem Heap.read_write_ne (h : Heap) (a b : Addr) (x : Val) (hne : b ≠ a) :
    (h.write a x).read b = h.read b :=
  readCells_write_ne h.cells a b x hne

/-- C4: for every instance `v`, `v.reset(v.get())` is a complete no-op:
the member and the world (so in particular the event log: no deleter
invocation) are returned unchanged, so the owned object is never
destroyed. -/
theorem C4_reset_self_noop (v : value_ptr) (w : World) :
    v.reset w v.get = (v, w) := by
  simp [value_ptr.reset]

/-- C6: `release()` returns the currently held pointer, leaves the
instance empty, touches the world (heap and policy-invocation log) not at
all, and destroying the released instance afterwards again leaves the
world untouched: the deleter is invoked zero times on the released
pointer, so no double destruction can occur. -/
theorem C6_release_no_double_destruction (v : value_ptr) (w : World) :
    (v.release w).1 = v.get ∧
    (v.release w).2.1.get = none ∧
    (v.release w).2.2 = w ∧
    (v.release w).2.1.destruct w = w := by
  simp [value_ptr.release, value_ptr.destruct, value_ptr.reset, value_ptr.get]

/-- C8: default construction and construction from null yield the same
empty instance with default-constructed cloner and deleter: its boolean
conversion is false, `get()` is null, `clone()` returns null leaving the
world (heap and log) unchanged, and its destructor destroys nothing; and
for every instance the boolean conversion is true exactly when `get()` is
non-null. -/
theorem C8_empty_construction :
    value_ptr.mk_default = value_ptr.mk_null ∧
    value_ptr.mk_default.toBool = false ∧
    value_ptr.mk_default.get = none ∧
    value_ptr.mk_default.get_cloner = ClonerV.default ∧
    value_ptr.mk_default.get_deleter = DeleterV.default ∧
    (∀ w : World, value_ptr.mk_default.clone w = Except.ok (none, w)) ∧
    (∀ w : World, value_ptr.mk_default.destruct w = w) ∧
    (∀ u : value_ptr, u.toBool = true ↔ u.get ≠ none) := by
  refine ⟨rfl, rfl, rfl, rfl, rfl, fun w => rfl, fun w => ?_, fun u => ?_⟩
  · simp [value_ptr.destruct, value_ptr.reset, value_ptr.mk_default, value_ptr.get]
  · by_cases h : u.get = none <;> simp [value_ptr.toBool, h]

/-- C9: self-move-assignment `v = std::move(v)` is safe and acts as the
identity: afterwards `v` holds its original pointer, cloner and deleter,
the heap (so in particular the pointee) is untouched, and any deleter
invocation made during the operation was on the null pointer. -/
theorem C9_self_move_identity (v : value_ptr) (w : World) :
    (v.selfMoveAssign w).1.get = v.get ∧
    (v.selfMoveAssign w).1.get_cloner = v.get_cloner ∧
    (v.selfMoveAssign w).1.get_deleter = v.get_deleter ∧
    (v.selfMoveAssign w).2.heap = w.heap ∧
    ((v.selfMoveAssign w).2.log = w.log ∨
      (v.selfMoveAssign w).2.log = w.log ++ [Event.deleterCall none]) := by
  cases hv : v.ptr <;>
    simp [value_ptr.selfMoveAssign, value_ptr.release, value_ptr.reset,
      value_ptr.get, value_ptr.get_cloner, value_ptr.get_deleter, DeleterV.run, hv]

/-- C10: resetting an empty instance to a non-null pointer invokes the
stored deleter exactly once, with the null pointer as argument (relying on
the deleter accepting null as a no-op, so the heap is unchanged), and then
adopts the new pointer. -/
theorem C10_reset_on_empty_calls_deleter_on_null (v : value_ptr) (w : World)
    (a : Addr) (hv : v.get = none) :
    v.reset w (some a) =
      ({ v with ptr := some a }, ⟨w.heap, w.log ++ [Event.deleterCall none]⟩) := by
  simp [value_ptr.reset, DeleterV.run, hv]

/-- Witness for C10 at a concrete input: an empty default-constructed
instance over the empty heap, reset to the pointer 1. -/
theorem C10_reset_on_empty_calls_deleter_on_null_witness :
    value_ptr.mk_default.reset ⟨⟨[], 0⟩, []⟩ (some 1) =
      ({ value_ptr.mk_default with ptr := some 1 },
       ⟨⟨[], 0⟩, [Event.deleterCall none]⟩) :=
  C10_reset_on_empty_calls_deleter_on_null value_ptr.mk_default ⟨⟨[], 0⟩, []⟩ 1 rfl

/-- C2: if the cloner invocation fails during copy construction from `v`
or during `v.clone()`, the operation throws and the state at the throw has
the heap exactly as before, so the pointee value of `v` is untouched; `v`
itself (a const source: pointer, cloner, deleter) is returned nowhere
modified, and no new instance has come to exist, so nothing partially
constructed owns anything. The only trace is the logged failed cloner
call. -/
theorem C2_clone_failure_leaves_source_unchanged (v : value_ptr) (w : World)
    (a : Addr) (hv : v.get = some a)
    (hfail : v.get_cloner.run w.heap a = none) :
    v.copyCtor w = Except.error ⟨w.heap, w.log ++ [Event.clonerCall a]⟩ ∧
    v.clone w = Except.error ⟨w.heap, w.log ++ [Event.clonerCall a]⟩ := by
  have hv2 : v.ptr = some a := hv
  have hf2 : v.cloner.run w.heap a = none := hfail
  have hc : v.clone w = Except.error ⟨w.heap, w.log ++ [Event.clonerCall a]⟩ := by
    simp [value_ptr.clone, value_ptr.get, value_ptr.get_cloner, hv2, hf2]
  exact ⟨by simp [value_ptr.copyCtor, hc], hc⟩

/-- Witness for C2 at a concrete input: an instance owning address 0
(value 5) whose cloner is configured to fail. -/
theorem C2_clone_failure_leaves_source_unchanged_witness :
    value_ptr.copyCtor ⟨some 0, ClonerV.failing, DeleterV.default⟩
        ⟨⟨[(0, 5)], 1⟩, []⟩ =
      Except.error ⟨⟨[(0, 5)], 1⟩, [Event.clonerCall 0]⟩ ∧
    value_ptr.clone ⟨some 0, ClonerV.failing, DeleterV.default⟩
        ⟨⟨[(0, 5)], 1⟩, []⟩ =
      Except.error ⟨⟨[(0, 5)], 1⟩, [Event.clonerCall 0]⟩ :=
  C2_clone_failure_leaves_source_unchanged
    ⟨some 0, ClonerV.failing, DeleterV.default⟩ ⟨⟨[(0, 5)], 1⟩, []⟩ 0 rfl rfl

/-- C5: on a non-empty instance with the default cloner, `clone()` returns
a fresh address distinct from `get()` whose cell holds a value equal to
the pointee of `v`, and the pointee of `v` is unchanged afterward (one
cloner call is logged); on every empty instance, `clone()` returns null
and leaves the world untouched, so the cloner is not invoked. -/
theorem C5_clone_fresh_and_equal (v : value_ptr) (w : World) (a : Addr)
    (x : Val) (hwf : w.heap.WF) (hv : v.get = some a)
    (hc : v.get_cloner = ClonerV.default) (hx : w.heap.read a = some x) :
    (∃ b w1, v.clone w = Except.ok (some b, w1) ∧ b ≠ a ∧
      w1.heap.read b = some x ∧ w1.heap.read a = some x ∧
      w1.log = w.log ++ [Event.clonerCall a]) ∧
    (∀ (u : value_ptr) (w0 : World), u.get = none →
      u.clone w0 = Except.ok (none, w0)) := by
  have hv2 : v.ptr = some a := hv
  have hc2 : v.cloner = ClonerV.default := hc
  have ha : a < w.heap.next := Heap.read_lt w.heap a x hwf hx
  constructor
  · refine ⟨w.heap.next,
      ⟨(w.heap.alloc x).1, w.log ++ [Event.clonerCall a]⟩, ?_, ?_, ?_, ?_, rfl⟩
    · simp [value_ptr.clone, value_ptr.get, value_ptr.get_cloner, hv2, hc2,
        ClonerV.run, hx, Heap.alloc]
    · exact Ne.symm (Nat.ne_of_lt ha)
    · exact Heap.read_alloc_self w.heap x
    · rw [Heap.read_alloc_ne w.heap x a (Nat.ne_of_lt ha)]
      exact hx
  · intro u w0 hu
    have hu2 : u.ptr = none := hu
    simp [value_ptr.clone, value_ptr.get, hu2]

/-- Witness for C5 at a concrete input: an instance owning address 0 with
value 5 in a one-cell well-formed heap. -/
theorem C5_clone_fresh_and_equal_witness :
    (∃ b w1, value_ptr.clone ⟨some 0, ClonerV.default, DeleterV.default⟩
        ⟨⟨[(0, 5)], 1⟩, []⟩ = Except.ok (some b, w1) ∧ b ≠ 0 ∧
      w1.heap.read b = some 5 ∧ w1.heap.read 0 = some 5 ∧
      w1.log = [] ++ [Event.clonerCall 0]) ∧
    (∀ (u : value_ptr) (w0 : World), u.get = none →
      u.clone w0 = Except.ok (none, w0)) :=
  C5_clone_fresh_and_equal ⟨some 0, ClonerV.default, DeleterV.default⟩
    ⟨⟨[(0, 5)], 1⟩, []⟩ 0 5 (by decide) rfl rfl rfl

/-- C7: copy construction with the default cloner is a deep copy with no
shared state: the copy owns a fresh address distinct from the source
pointer and carries copies of the source policies; the source pointee is
intact after the copy; destroying the copy leaves the source pointee
intact; and mutating the source pointee to any value leaves the pointee of
the copy at the value the source had at copy time. -/
theorem C7_copy_is_deep_and_independent (v : value_ptr) (w : World)
    (a : Addr) (x : Val) (hwf : w.heap.WF) (hv : v.get = some a)
    (hc : v.get_cloner = ClonerV.default) (hx : w.heap.read a = some x) :
    ∃ t w2, v.copyCtor w = Except.ok (t, w2) ∧
      t.get = some w.heap.next ∧ w.heap.next ≠ a ∧
      t.get_cloner = v.get_cloner ∧ t.get_deleter = v.get_deleter ∧
      w2.heap.read a = some x ∧
      (t.destruct w2).heap.read a = some x ∧
      (∀ y : Val, (w2.heap.write a y).read w.heap.next = some x) := by
  have hv2 : v.ptr = some a := hv
  have hc2 : v.cloner = ClonerV.default := hc
  have ha : a < w.heap.next := Heap.read_lt w.heap a x hwf hx
  have hna : w.heap.next ≠ a := Ne.symm (Nat.ne_of_lt ha)
  refine ⟨⟨some w.heap.next, v.cloner, v.deleter⟩,
    ⟨(w.heap.alloc x).1,
      w.log ++ [Event.clonerCall a, Event.deleterCall none]⟩,
    ?_, rfl, hna, rfl, rfl, ?_, ?_, ?_⟩
  · simp [value_ptr.copyCtor, value_ptr.clone, value_ptr.get,
      value_ptr.get_cloner, value_ptr.get_deleter, hv2, hc2, ClonerV.run, hx,
      value_ptr.reset, DeleterV.run, Heap.alloc]
  · rw [Heap.read_alloc_ne w.heap x a (Nat.ne_of_lt ha)]
    exact hx
  · simp only [value_ptr.destruct, value_ptr.reset, value_ptr.get,
      value_ptr.get_deleter, DeleterV.run]
    rw [if_pos (by simp)]
    simp only [DeleterV.run]
    rw [Heap.read_free_ne _ _ _ (Nat.ne_of_lt ha),
      Heap.read_alloc_ne w.heap x a (Nat.ne_of_lt ha)]
    exact hx
  · intro y
    rw [Heap.read_write_ne _ _ _ _ hna]
    exact Heap.read_alloc_self w.heap x

/-- Witness for C7 at a concrete input: copying an instance that owns
address 0 holding 5 in a one-cell well-formed heap. -/
theorem C7_copy_is_deep_and_independent_witness :
    ∃ t w2, value_ptr.copyCtor ⟨some 0, ClonerV.default, DeleterV.default⟩
        ⟨⟨[(0, 5)], 1⟩, []⟩ = Except.ok (t, w2) ∧
      t.get = some 1 ∧ (1 : Addr) ≠ 0 ∧
      t.get_cloner = ClonerV.default ∧ t.get_deleter = DeleterV.default ∧
      w2.heap.read 0 = some 5 ∧
      (t.destruct w2).heap.read 0 = some 5 ∧
      (∀ y : Val, (w2.heap.write 0 y).read 1 = some 5) :=
  C7_copy_is_deep_and_independent ⟨some 0, ClonerV.default, DeleterV.default⟩
    ⟨⟨[(0, 5)], 1⟩, []⟩ 0 5 (by decide) rfl rfl rfl

/-- C3: copy assignment clones first and destroys the old value only
afterwards. If the cloner of the source fails, the assignment throws with
the target exactly as it was and the heap untouched (no deleter call was
made). If the clone succeeds, the target ends up owning the fresh clone
with copies of the source cloner and deleter, and the log shows the
deleter call on the old pointer strictly after the successful cloner
call. -/
theorem C3_copy_assign_clones_before_destroying (t v : value_ptr)
    (w : World) (a : Addr) (x : Val) (hv : v.get = some a)
    (hc : v.get_cloner = ClonerV.default) (hx : w.heap.read a = some x)
    (hne : t.get ≠ some w.heap.next) :
    (t.copyAssign { v with cloner := ClonerV.failing } w =
      Except.error (t, ⟨w.heap, w.log ++ [Event.clonerCall a]⟩)) ∧
    (∃ t2 w2, t.copyAssign v w = Except.ok (t2, w2) ∧
      t2.get = some w.heap.next ∧
      t2.get_cloner = v.get_cloner ∧ t2.get_deleter = v.get_deleter ∧
      w2.heap.read w.heap.next = some x ∧
      w2.log = w.log ++ [Event.clonerCall a, Event.deleterCall t.get]) := by
  have hv2 : v.ptr = some a := hv
  have hc2 : v.cloner = ClonerV.default := hc
  have hne2 : some w.heap.next ≠ t.ptr := Ne.symm hne
  constructor
  · simp [value_ptr.copyAssign, value_ptr.clone, value_ptr.get,
      value_ptr.get_cloner, hv2, ClonerV.run]
  · refine ⟨⟨some w.heap.next, v.cloner, v.deleter⟩,
      ⟨DeleterV.run t.deleter (w.heap.alloc x).1 t.ptr,
        w.log ++ [Event.clonerCall a, Event.deleterCall t.ptr]⟩, ?_, rfl, rfl,
      rfl, ?_, rfl⟩
    · simp [value_ptr.copyAssign, value_ptr.clone, value_ptr.get,
        value_ptr.get_cloner, value_ptr.get_deleter, hv2, hc2, ClonerV.run, hx,
        value_ptr.reset, hne2, Heap.alloc]
    · cases ht : t.ptr with
      | none =>
        simp only [DeleterV.run]
        exact Heap.read_alloc_self w.heap x
      | some b =>
        have hbn : w.heap.next ≠ b := by
          intro hh
          exact hne (by rw [← hh] at ht; exact ht)
        simp only [DeleterV.run]
        rw [Heap.read_free_ne _ _ _ hbn]
        exact Heap.read_alloc_self w.heap x

/-- Witness for C3 at a concrete input: assigning into a target owning
address 0 (value 7) from a source owning address 1 (value 5), over a
well-formed two-cell heap. -/
theorem C3_copy_assign_clones_before_destroying_witness :
    (value_ptr.copyAssign ⟨some 0, ClonerV.default, DeleterV.tagged 3⟩
        { (⟨some 1, ClonerV.default, DeleterV.default⟩ : value_ptr) with
          cloner := ClonerV.failing } ⟨⟨[(0, 7), (1, 5)], 2⟩, []⟩ =
      Except.error (⟨some 0, ClonerV.default, DeleterV.tagged 3⟩,
        ⟨⟨[(0, 7), (1, 5)], 2⟩, [Event.clonerCall 1]⟩)) ∧
    (∃ t2 w2, value_ptr.copyAssign ⟨some 0, ClonerV.default, DeleterV.tagged 3⟩
        ⟨some 1, ClonerV.default, DeleterV.default⟩ ⟨⟨[(0, 7), (1, 5)], 2⟩, []⟩ =
        Except.ok (t2, w2) ∧
      t2.get = some 2 ∧
      t2.get_cloner = ClonerV.default ∧ t2.get_deleter = DeleterV.default ∧
      w2.heap.read 2 = some 5 ∧
      w2.log = [] ++ [Event.clonerCall 1, Event.deleterCall (some 0)]) :=
  C3_copy_assign_clones_before_destroying
    ⟨some 0, ClonerV.default, DeleterV.tagged 3⟩
    ⟨some 1, ClonerV.default, DeleterV.default⟩
    ⟨⟨[(0, 7), (1, 5)], 2⟩, []⟩ 1 5 rfl rfl (by decide) (by decide)

/-- C1: the move constructor does not empty the source. Its body is
`reset(); m_ = std::move(v);`, where `m_ = std::move(v)` assigns the
`value_ptr` itself to the tuple member: ill-formed, and under the nearest
well-formed reading (tuple move assignment from `v.m_`) the raw pointer of
`v` is copied rather than transferred. Concretely: moving from an instance
owning address 0 (value 5) leaves the source still holding address 0, and
destroying target and source afterwards invokes the deleter twice on the
same address 0, a double destruction. -/
theorem C1_move_ctor_source_not_emptied :
    let v : value_ptr := ⟨some 0, ClonerV.default, DeleterV.default⟩
    let w : World := ⟨⟨[(0, 5)], 1⟩, []⟩
    let r := v.moveCtor w
    r.2.1.get = some 0 ∧
    (r.2.1.destruct (r.1.destruct r.2.2)).log =
      [Event.deleterCall (some 0), Event.deleterCall (some 0)] := by
  decide
